import Mathlib

/-!
Verification development for a Flask-based LM Studio relay (`app.py`).

The development shallowly embeds the parts of `app.py` that the verified
properties speak about:

* a JSON value type with a strict parser modelling Python's `json.loads`
  and a serializer modelling `json.dumps` (default `ensure_ascii=True`);
* `LMStudioProxy._process_stream` (upstream SSE line processing);
* `LMStudioProxy.get_models` (fallback / set-union model listing);
* `StoppableGenerator` (cancellable fragment pulling);
* the `generate_stream` closure from the `/generate` handler
  (downstream SSE event emission, registry registration and cleanup);
* the `/stop` handler `stop_generation` and the `generators` registry.

Machine-level aspects (HTTP transport, threads, logging) are abstracted:
an upstream streaming body is a list of decoded lines, the concurrent
stop signal is the value of the handle's stop flag at each pull index,
and network outcomes are an `Except` value.
-/

/-- JSON values as produced by Python's `json.loads`.  Numbers keep their
source lexeme (Python distinguishes int/float; no claim inspects numeric
values, only structure). -/
inductive Json where
  | null : Json
  | bool (b : Bool) : Json
  | num (lexeme : String) : Json
  | str (s : String) : Json
  | arr (elems : List Json) : Json
  | obj (fields : List (String × Json)) : Json

/-- JSON insignificant whitespace (RFC 8259: space, tab, LF, CR), as accepted
between tokens by Python's `json.loads`. -/
def isJsonWs (c : Char) : Bool :=
  c = ' ' || c = '\t' || c = '\n' || c = '\r'

/-- Skip insignificant whitespace. -/
def skipWs : List Char → List Char
  | [] => []
  | c :: cs => if isJsonWs c then skipWs cs else c :: cs

/-- Value of a hex digit, if the character is one. -/
def hexVal (c : Char) : Option Nat :=
  if '0' ≤ c ∧ c ≤ '9' then some (c.toNat - 48)
  else if 'a' ≤ c ∧ c ≤ 'f' then some (c.toNat - 87)
  else if 'A' ≤ c ∧ c ≤ 'F' then some (c.toNat - 55)
  else none

/-- Body of a JSON string after the opening quote: returns the decoded
characters and the input remaining after the closing quote.  Mirrors the
strict `json.loads` scanner: raw control characters are rejected, the
escapes are those of RFC 8259, and `\uXXXX` surrogate pairs are combined.
(Lone surrogates, which CPython tolerates, cannot inhabit a Lean `Char`
and are rejected here; no analysed behaviour depends on them.) -/
def parseStrBody : List Char → Option (List Char × List Char)
  | [] => none
  | '"' :: rest => some ([], rest)
  | '\\' :: rest =>
    match rest with
    | '"' :: cs => (parseStrBody cs).map (fun p => ('"' :: p.1, p.2))
    | '\\' :: cs => (parseStrBody cs).map (fun p => ('\\' :: p.1, p.2))
    | '/' :: cs => (parseStrBody cs).map (fun p => ('/' :: p.1, p.2))
    | 'b' :: cs => (parseStrBody cs).map (fun p => ('\x08' :: p.1, p.2))
    | 'f' :: cs => (parseStrBody cs).map (fun p => ('\x0c' :: p.1, p.2))
    | 'n' :: cs => (parseStrBody cs).map (fun p => ('\n' :: p.1, p.2))
    | 'r' :: cs => (parseStrBody cs).map (fun p => ('\r' :: p.1, p.2))
    | 't' :: cs => (parseStrBody cs).map (fun p => ('\t' :: p.1, p.2))
    | 'u' :: a :: b :: c :: d :: cs =>
      match hexVal a, hexVal b, hexVal c, hexVal d with
      | some va, some vb, some vc, some vd =>
        let n := ((va * 16 + vb) * 16 + vc) * 16 + vd
        if 0xd800 ≤ n ∧ n ≤ 0xdbff then
          -- high surrogate: must be followed by a low surrogate escape
          match cs with
          | '\\' :: 'u' :: e :: f :: g :: h :: cs2 =>
            match hexVal e, hexVal f, hexVal g, hexVal h with
            | some ve, some vf, some vg, some vh =>
              let m := ((ve * 16 + vf) * 16 + vg) * 16 + vh
              if 0xdc00 ≤ m ∧ m ≤ 0xdfff then
                let cp := 0x10000 + (n - 0xd800) * 0x400 + (m - 0xdc00)
                (parseStrBody cs2).map (fun p => (Char.ofNat cp :: p.1, p.2))
              else none
            | _, _, _, _ => none
          | _ => none
        else if 0xdc00 ≤ n ∧ n ≤ 0xdfff then none
        else (parseStrBody cs).map (fun p => (Char.ofNat n :: p.1, p.2))
      | _, _, _, _ => none
    | _ => none
  | c :: rest =>
    if c.toNat < 0x20 then none
    else (parseStrBody rest).map (fun p => (c :: p.1, p.2))

/-- Split a leading run of decimal digits. -/
def takeDigits : List Char → (List Char × List Char)
  | [] => ([], [])
  | c :: cs =>
    if c.isDigit then
      let p := takeDigits cs
      (c :: p.1, p.2)
    else ([], c :: cs)

/-- Integer part of a JSON number after an optional sign:
`0` or a nonzero digit followed by digits (the regex `0|[1-9][0-9]*` used
by Python's scanner).  Returns the consumed lexeme and the rest. -/
def parseIntPart : List Char → Option (List Char × List Char)
  | [] => none
  | c :: cs =>
    if c = '0' then some (['0'], cs)
    else if c.isDigit then
      let p := takeDigits cs
      some (c :: p.1, p.2)
    else none

/-- Optional fraction `.[0-9]+`. -/
def parseFracPart : List Char → (List Char × List Char)
  | '.' :: c :: cs =>
    if c.isDigit then
      let p := takeDigits cs
      ('.' :: c :: p.1, p.2)
    else ([], '.' :: c :: cs)
  | cs => ([], cs)

/-- Optional exponent `[eE][+-]?[0-9]+`. -/
def parseExpPart (cs : List Char) : (List Char × List Char) :=
  match cs with
  | e :: rest =>
    if e = 'e' ∨ e = 'E' then
      match rest with
      | s :: rest2 =>
        if s = '+' ∨ s = '-' then
          match rest2 with
          | d :: rest3 =>
            if d.isDigit then
              let p := takeDigits rest3
              (e :: s :: d :: p.1, p.2)
            else ([], cs)
          | [] => ([], cs)
        else if s.isDigit then
          let p := takeDigits rest
          (e :: s :: p.1, p.2)
        else ([], cs)
      | [] => ([], cs)
    else ([], cs)
  | [] => ([], cs)

/-- A JSON number (or the CPython extensions `NaN`, `Infinity`,
`-Infinity`), starting at a `-` or digit or constant. -/
def parseNum (cs : List Char) : Option (Json × List Char) :=
  match cs with
  | '-' :: 'I' :: 'n' :: 'f' :: 'i' :: 'n' :: 'i' :: 't' :: 'y' :: rest =>
    some (Json.num "-Infinity", rest)
  | '-' :: rest =>
    match parseIntPart rest with
    | some (ip, rest1) =>
      let fr := parseFracPart rest1
      let ex := parseExpPart fr.2
      some (Json.num (String.mk ('-' :: ip ++ fr.1 ++ ex.1)), ex.2)
    | none => none
  | _ =>
    match parseIntPart cs with
    | some (ip, rest1) =>
      let fr := parseFracPart rest1
      let ex := parseExpPart fr.2
      some (Json.num (String.mk (ip ++ fr.1 ++ ex.1)), ex.2)
    | none => none

mutual

/-- One JSON value, fuel-bounded recursive descent (`json.loads` grammar
plus the CPython constants `NaN`/`Infinity`/`-Infinity`). -/
def parseVal : Nat → List Char → Option (Json × List Char)
  | 0, _ => none
  | Nat.succ fuel, cs =>
    match skipWs cs with
    | [] => none
    | c :: cs' =>
      if c = '"' then
        match parseStrBody cs' with
        | some (chars, rest) => some (Json.str (String.mk chars), rest)
        | none => none
      else if c = '[' then
        match skipWs cs' with
        | ']' :: rest => some (Json.arr [], rest)
        | cs'' =>
          match parseElems fuel cs'' with
          | some (vs, rest) => some (Json.arr vs, rest)
          | none => none
      else if c = '{' then
        match skipWs cs' with
        | '}' :: rest => some (Json.obj [], rest)
        | cs'' =>
          match parseFields fuel cs'' with
          | some (fs, rest) => some (Json.obj fs, rest)
          | none => none
      else if c = 't' then
        match cs' with
        | 'r' :: 'u' :: 'e' :: rest => some (Json.bool true, rest)
        | _ => none
      else if c = 'f' then
        match cs' with
        | 'a' :: 'l' :: 's' :: 'e' :: rest => some (Json.bool false, rest)
        | _ => none
      else if c = 'n' then
        match cs' with
        | 'u' :: 'l' :: 'l' :: rest => some (Json.null, rest)
        | _ => none
      else if c = 'N' then
        match cs' with
        | 'a' :: 'N' :: rest => some (Json.num "NaN", rest)
        | _ => none
      else if c = 'I' then
        match cs' with
        | 'n' :: 'f' :: 'i' :: 'n' :: 'i' :: 't' :: 'y' :: rest =>
          some (Json.num "Infinity", rest)
        | _ => none
      else if c = '-' ∨ c.isDigit then parseNum (c :: cs')
      else none

/-- Elements of a nonempty JSON array, consuming the closing `]`. -/
def parseElems : Nat → List Char → Option (List Json × List Char)
  | 0, _ => none
  | Nat.succ fuel, cs =>
    match parseVal fuel cs with
    | none => none
    | some (v, rest) =>
      match skipWs rest with
      | ',' :: rest' =>
        match parseElems fuel rest' with
        | some (vs, rest'') => some (v :: vs, rest'')
        | none => none
      | ']' :: rest' => some ([v], rest')
      | _ => none

/-- Fields of a nonempty JSON object, consuming the closing brace. -/
def parseFields : Nat → List Char → Option (List (String × Json) × List Char)
  | 0, _ => none
  | Nat.succ fuel, cs =>
    match skipWs cs with
    | '"' :: cs' =>
      match parseStrBody cs' with
      | none => none
      | some (kchars, rest) =>
        match skipWs rest with
        | ':' :: rest1 =>
          match parseVal fuel rest1 with
          | none => none
          | some (v, rest2) =>
            match skipWs rest2 with
            | ',' :: rest3 =>
              match parseFields fuel rest3 with
              | some (fs, rest4) => some ((String.mk kchars, v) :: fs, rest4)
              | none => none
            | '}' :: rest3 => some ([(String.mk kchars, v)], rest3)
            | _ => none
        | _ => none
    | _ => none

end

/-- Model of `json.loads`: parse a complete JSON document; trailing whitespace is
allowed, any other trailing input is an error ("Extra data").  `none`
models a raised `json.JSONDecodeError`.  The fuel `2 * length + 4`
dominates the recursion depth (every two nested calls consume at least
one input character), so no well-formed document is refused for fuel. -/
def parseJson (s : String) : Option Json :=
  match parseVal (2 * s.length + 4) s.data with
  | some (v, rest) => if skipWs rest = [] then some v else none
  | none => none


/-- Python `str.isspace` characters (the set stripped by `str.strip()`). -/
def isPySpace (c : Char) : Bool :=
  let n := c.toNat
  (0x09 ≤ n && n ≤ 0x0d) || (0x1c ≤ n && n ≤ 0x1f) || n = 0x20 ||
  n = 0x85 || n = 0xa0 || n = 0x1680 || (0x2000 ≤ n && n ≤ 0x200a) ||
  n = 0x2028 || n = 0x2029 || n = 0x202f || n = 0x205f || n = 0x3000

/-- Python `str.strip()`: remove leading and trailing whitespace. -/
def pyStrip (s : String) : String :=
  String.mk (((s.data.dropWhile isPySpace).reverse.dropWhile isPySpace).reverse)

/-- Python `str.startswith`: code-point prefix test (Python strings are
code-point sequences, as is `String.data`). -/
def strStartsWith (s pre : String) : Bool := pre.data.isPrefixOf s.data

/-- Python slicing `s[n:]`: drop the first `n` code points. -/
def strDrop (s : String) (n : Nat) : String := String.mk (s.data.drop n)

/-- Lookup in a parsed JSON object.  Python's `json.loads` builds a `dict`,
so a duplicated key keeps its last occurrence; the lookup mirrors that. -/
def objGet : List (String × Json) → String → Option Json
  | [], _ => none
  | (k', v) :: rest, k =>
    match objGet rest k with
    | some v' => some v'
    | none => if k' = k then some v else none

/-- The content extraction of `_process_stream` (app.py lines 99-102):
`if 'choices' in data and len(data['choices']) > 0:` then
`data['choices'][0].get('delta', {}).get('content', '')`, yielding the
string only when truthy (non-empty).  `some c` means one fragment `c` is
yielded, `none` means the line yields nothing.  Payloads outside the
shapes reachable here (a non-dict top level, a non-dict `choices[0]`, a
truthy non-string `content`) would raise in Python rather than yield; they
are modelled as yielding nothing and are outside every property below. -/
def extractContent (data : Json) : Option String :=
  match data with
  | Json.obj fields =>
    match objGet fields "choices" with
    | some (Json.arr (c0 :: _)) =>
      match c0 with
      | Json.obj f0 =>
        let delta := (objGet f0 "delta").getD (Json.obj [])
        match delta with
        | Json.obj fd =>
          match objGet fd "content" with
          | some (Json.str s) => if s = "" then none else some s
          | _ => none
        | _ => none
      | _ => none
    | _ => none
  | _ => none

/-- The literal yielded by `_process_stream` when `json.loads` fails. -/
def errMarker : String := "Error: Invalid response format from server"

/-- The literal yielded by `_process_stream` for an unexpected line. -/
def warnMarker : String := "Warning: Unexpected response format from server"

/-- Embedding of `LMStudioProxy._process_stream` (app.py lines 91-111) over the decoded
lines of the upstream body: skip empty lines (`if line:`), strip, then
dispatch — a `data: ` prefix has its remainder JSON-parsed (error marker
on failure, fragment on non-empty content, silence otherwise), a line
equal to `data: [DONE]` breaks, anything else yields the warning marker.
The branches are tested in source order, so the `data: [DONE]` test is
only reached by lines NOT starting with `data: `. -/
def process_stream : List String → List String
  | [] => []
  | raw :: rest =>
    if raw = "" then process_stream rest
    else
      let line := pyStrip raw
      if strStartsWith line "data: " then
        match parseJson (strDrop line 6) with
        | some data =>
          match extractContent data with
          | some c => c :: process_stream rest
          | none => process_stream rest
        | none => errMarker :: process_stream rest
      else if line = "data: [DONE]" then []
      else warnMarker :: process_stream rest

/-- Lowercase hex digit. -/
def hexDigit (n : Nat) : Char :=
  if n < 10 then Char.ofNat (48 + n) else Char.ofNat (87 + n)

/-- Four lowercase hex digits, as in Python's `\uXXXX` escapes. -/
def toHex4 (n : Nat) : String :=
  String.mk [hexDigit (n / 4096 % 16), hexDigit (n / 256 % 16),
             hexDigit (n / 16 % 16), hexDigit (n % 16)]

/-- Escaping of one character by `json.dumps` with its default
`ensure_ascii=True`: quote and backslash escaped, the named control
escapes, `\uXXXX` for other control or non-ASCII characters (surrogate
pairs above the BMP), printable ASCII kept verbatim. -/
def escChar (c : Char) : String :=
  if c = '"' then "\\\""
  else if c = '\\' then "\\\\"
  else if c = '\x08' then "\\b"
  else if c = '\x0c' then "\\f"
  else if c = '\n' then "\\n"
  else if c = '\r' then "\\r"
  else if c = '\t' then "\\t"
  else if 0x20 ≤ c.toNat ∧ c.toNat ≤ 0x7e then String.singleton c
  else if c.toNat < 0x10000 then "\\u" ++ toHex4 c.toNat
  else
    "\\u" ++ toHex4 (0xd800 + (c.toNat - 0x10000) / 0x400) ++
    "\\u" ++ toHex4 (0xdc00 + (c.toNat - 0x10000) % 0x400)

/-- Model of `json.dumps` applied to a Python string (double-quoted, escaped). -/
def pyJsonDumpsStr (s : String) : String :=
  "\"" ++ String.join (s.data.map escChar) ++ "\""

/-- The downstream SSE block `generate_stream` emits for one fragment:
`f"data: {json.dumps({'content': content})}\n\n"` (app.py line 135). -/
def contentEvent (c : String) : String :=
  "data: " ++ ("\x7b\"content\": " ++ pyJsonDumpsStr c ++ "\x7d") ++ "\n\n"

/-- The downstream SSE block for the error path:
`f"data: {json.dumps({'error': str(e)})}\n\n"` (app.py line 139). -/
def errorEvent (e : String) : String :=
  "data: " ++ ("\x7b\"error\": " ++ pyJsonDumpsStr e ++ "\x7d") ++ "\n\n"

/-- The terminal SSE block `"data: [DONE]\n\n"` (app.py line 136). -/
def doneEvent : String := "data: [DONE]\n\n"

/-- Embedding of `StoppableGenerator` (app.py lines 19-33): wraps the fragment
sequence (modelled by its remaining outputs) with a `threading.Event`
stop flag. -/
structure StoppableGenerator where
  stop_event : Bool
  rest : List String

/-- Embedding of `StoppableGenerator.__next__`: when the stop flag is set, raise
`StopIteration` (modelled as `none`); otherwise pull from the underlying
generator, whose exhaustion also raises `StopIteration`. -/
def StoppableGenerator.next (g : StoppableGenerator) :
    Option String × StoppableGenerator :=
  if g.stop_event then (none, g)
  else
    match g.rest with
    | [] => (none, g)
    | f :: r => (some f, { g with rest := r })

/-- Embedding of `StoppableGenerator.stop`: `self.stop_event.set()`. -/
def StoppableGenerator.setStop (g : StoppableGenerator) : StoppableGenerator :=
  { g with stop_event := true }

/-- An operation performed on one handle: a pull by the relay worker
(`__next__`) or a stop from the `/stop` worker (`stop`). -/
inductive HandleOp where
  | pull : HandleOp
  | stopSignal : HandleOp

/-- Apply one operation to the handle state. -/
def StoppableGenerator.applyOp (g : StoppableGenerator) :
    HandleOp → StoppableGenerator
  | HandleOp.pull => (g.next).2
  | HandleOp.stopSignal => g.setStop

/-- Apply a sequence of operations, oldest first. -/
def StoppableGenerator.runOps (g : StoppableGenerator) :
    List HandleOp → StoppableGenerator
  | [] => g
  | op :: ops => (g.applyOp op).runOps ops

/-- The `for content in stoppable_gen:` loop of `generate_stream`
(app.py lines 134-135), emitting one `contentEvent` per fragment.  The
concurrent `/stop` worker is abstracted by `flag i`, the value of this
handle's `stop_event` when the relay performs its `i`-th pull:
`__next__` checks the flag before pulling, so a set flag ends the loop
(via `StopIteration`) without consuming a fragment. -/
def sgRun (flag : Nat → Bool) : List String → Nat → List String
  | frags, i =>
    if flag i then []
    else
      match frags with
      | [] => []
      | f :: r => contentEvent f :: sgRun flag r (i + 1)

/-- The downstream events of `generate_stream`'s streaming path
(app.py lines 134-136): the loop's content events, then — whether the
loop ended by exhaustion or by an observed stop flag, both of which are
`StopIteration` — the terminal `data: [DONE]` block. -/
def generate_stream_events (frags : List String) (flag : Nat → Bool) :
    List String :=
  sgRun flag frags 0 ++ [doneEvent]

/-- The process-wide `generators` dict, keyed by session identifier;
values are handle identities whose `stop_event` fields live in
`World.flags`. -/
structure World where
  registry : String → Option Nat
  flags : Nat → Bool

/-- Embedding of `generators[session_id] = stoppable_gen`: unconditional dict
insert/overwrite (app.py line 133). -/
def regInsert (r : String → Option Nat) (k : String) (v : Nat) :
    String → Option Nat :=
  fun x => if x = k then some v else r x

/-- Embedding of `del generators[session_id]`: remove a key. -/
def regErase (r : String → Option Nat) (k : String) : String → Option Nat :=
  fun x => if x = k then none else r x

/-- Set one handle's `stop_event`. -/
def setFlag (fl : Nat → Bool) (h : Nat) : Nat → Bool :=
  fun x => if x = h then true else fl x

/-- Registration step of `generate_stream` (app.py line 133). -/
def register (w : World) (sid : String) (hid : Nat) : World :=
  { w with registry := regInsert w.registry sid hid }

/-- The `finally` clause of `generate_stream` (app.py lines 140-142):
`if session_id in generators: del generators[session_id]`. -/
def finallyCleanup (r : String → Option Nat) (sid : String) :
    String → Option Nat :=
  if (r sid).isSome then regErase r sid else r

/-- An HTTP response, with the JSON body `jsonify` renders. -/
structure HttpResponse where
  body : Json
  code : Nat

/-- The `/stop` handler `stop_generation` (app.py lines 146-153): if the
session identifier is registered, set that handle's `stop_event`, delete
the entry and answer `{"status": "stopped"}` with 200; otherwise answer
`{"status": "not found"}` with 404 and leave the state untouched. -/
def stop_generation (w : World) (sid : String) : HttpResponse × World :=
  match w.registry sid with
  | some h =>
    (⟨Json.obj [("status", Json.str "stopped")], 200⟩,
     ⟨regErase w.registry sid, setFlag w.flags h⟩)
  | none => (⟨Json.obj [("status", Json.str "not found")], 404⟩, w)

/-- The whole `generate_stream` closure (app.py lines 130-142), given the
outcome of `lm_proxy.generate(model, prompt)`: `Except.error e` models
the call raising `Exception(e)` at stream establishment (app.py lines
81-89), `Except.ok frags` models a successfully constructed fragment
sequence.  On error, nothing was registered; control jumps to the
`except` clause, which yields one `errorEvent`, and then the `finally`
clause runs.  On success, the handle is registered, the streaming loop
runs (with the concurrent stop abstracted as `flag`, as in `sgRun`), and
the `finally` clause removes the entry.  (The success branch shows the
registry as this request leaves it when no concurrent mutation
interleaves; the properties below use the error branch and the events.) -/
def generate_stream_run (w : World) (sid : String) (hid : Nat)
    (genResult : Except String (List String)) (flag : Nat → Bool) :
    List String × World :=
  match genResult with
  | Except.error e =>
    ([errorEvent e], { w with registry := finallyCleanup w.registry sid })
  | Except.ok frags =>
    (generate_stream_events frags flag,
     { w with registry :=
        finallyCleanup (regInsert w.registry sid hid) sid })

/-- The kinds of network failure caught by `get_models` (app.py line 56):
`except (ConnectionError, RequestException, Timeout)`. -/
inductive NetErr where
  | connectionRefused : NetErr
  | timedOut : NetErr
  | requestFailed : NetErr

/-- The static fallback list `self.models` (app.py lines 39-47). -/
def fallback_models : List String :=
  ["bartowski/stable-code-instruct-3b-GGUF/stable-code-instruct-3b-Q4_0.gguf",
   "lmstudio-community/Meta-Llama-3.1-8B-Instruct-GGUF/Meta-Llama-3.1-8B-Instruct-Q4_K_M.gguf",
   "second-state/Llava-v1.5-7B-GGUF/llava-v1.5-7b-Q4_0.gguf",
   "internlm/internlm2_5-20b-chat-gguf/internlm2_5-20b-chat-q4_0.gguf",
   "lmstudio-community/Codestral-22B-v0.1-GGUF/Codestral-22B-v0.1-Q4_K_M.gguf",
   "TheBloke/WizardCoder-Python-34B-V1.0-GGUF/wizardcoder-python-34b-v1.0.Q3_K_S.gguf",
   "TheBloke/WizardCoder-33B-V1.1-GGUF/wizardcoder-33b-v1.1.Q3_K_S.gguf"]

/-- The identifier list computed by `LMStudioProxy.get_models` (app.py
lines 49-58), given the upstream request's outcome (`ok` carries the ids
of the backend's model list).  Success: `list(set(self.models + ids))` —
a duplicate-free list of the union, in an order CPython leaves
unspecified, represented here by `List.dedup`.  Any caught network
failure: the static fallback list unchanged. -/
def get_models_ids : Except NetErr (List String) → List String
  | Except.ok ids => (fallback_models ++ ids).dedup
  | Except.error _ => fallback_models

/-- The response value of `get_models`: `{'data': [{'id': m} for m in ...]}`. -/
def get_models (upstream : Except NetErr (List String)) : Json :=
  Json.obj [("data", Json.arr ((get_models_ids upstream).map
    (fun m => Json.obj [("id", Json.str m)])))]

/-! ## Sanity evaluations of the embedding -/

theorem parseJson_done_marker : parseJson "[DONE]" = none := rfl

theorem parseJson_content_line :
    parseJson "\x7b\"choices\": [\x7b\"delta\": \x7b\"content\": \"hi\"\x7d\x7d]\x7d" =
      some (Json.obj [("choices",
        Json.arr [Json.obj [("delta", Json.obj [("content", Json.str "hi")])]])]) := rfl

theorem contentEvent_hi : contentEvent "hi" = "data: \x7b\"content\": \"hi\"\x7d\n\n" := rfl

/-! ## Shared helper lemmas -/

theorem regInsert_same (r : String → Option Nat) (k : String) (v : Nat) :
    regInsert r k v k = some v := by
  simp [regInsert]

theorem regErase_same (r : String → Option Nat) (k : String) :
    regErase r k k = none := by
  simp [regErase]

theorem setFlag_same (fl : Nat → Bool) (h : Nat) : setFlag fl h h = true := by
  simp [setFlag]

theorem setFlag_other (fl : Nat → Bool) (h x : Nat) (hne : x ≠ h) :
    setFlag fl h x = fl x := by
  simp [setFlag, hne]

theorem sgRun_stopped (flag : Nat → Bool) (frags : List String) (i : Nat)
    (h : flag i = true) : sgRun flag frags i = [] := by
  cases frags <;> rw [sgRun] <;> simp [h]

/-! ## Claim theorems -/

/-- C2 (code bug).  The claim says a line exactly equal to `data: [DONE]`
terminates the fragment sequence normally with no further lines read.  In
the code the `elif line == 'data: [DONE]'` branch is unreachable: such a
line also satisfies the earlier `line.startswith('data: ')` test, so its
remainder `[DONE]` is fed to `json.loads`, which fails, and the sequence
yields the error marker and keeps reading.  Evaluated here on the lines
`["data: [DONE]", "data: \x7b\"choices\": [\x7b\"delta\": \x7b\"content\":
\"next\"\x7d\x7d]\x7d"]`: the expected result under the claim is `[]`, the
code produces the error marker followed by the fragment of the later line. -/
theorem c2_done_line_is_not_terminal :
    process_stream
      ["data: [DONE]",
       "data: \x7b\"choices\": [\x7b\"delta\": \x7b\"content\": \"next\"\x7d\x7d]\x7d"] =
      [errMarker, "next"] := rfl

/-- C3 (code bug).  The claim says N well-formed content lines followed by
a `data: [DONE]` line produce exactly N downstream content events and one
terminal `data: [DONE]` block.  Because the `data: [DONE]` line is
captured by the `data: ` prefix branch (see C2), it contributes one extra
content event carrying the error marker before the terminal block.
Evaluated with N = 1 and no stop request: the claim expects
`[contentEvent "hi", doneEvent]`, the code produces three events. -/
theorem c3_extra_event_before_done :
    generate_stream_events
      (process_stream
        ["data: \x7b\"choices\": [\x7b\"delta\": \x7b\"content\": \"hi\"\x7d\x7d]\x7d",
         "data: [DONE]"])
      (fun _ => false) =
      [contentEvent "hi", contentEvent errMarker, doneEvent] := rfl

/-- C4 (confirmed).  For every network failure caught by `get_models`
(connection refused, timeout, generic request error), the function
returns the static fallback model list wrapped in the usual response
shape, rather than propagating the error. -/
theorem c4_get_models_network_fallback (e : NetErr) :
    get_models_ids (Except.error e) = fallback_models ∧
    get_models (Except.error e) =
      Json.obj [("data", Json.arr (fallback_models.map
        (fun m => Json.obj [("id", Json.str m)])))] := by
  cases e <;> exact ⟨rfl, rfl⟩

/-- C5 (confirmed).  With the backend unreachable, `get_models` yields
exactly the static fallback list, which contains no duplicate
identifiers; with the backend reachable, the result is a duplicate-free
list whose members are exactly the union of the fallback list and the
upstream identifiers (order unspecified, represented by `List.dedup`). -/
theorem c5_model_list_union_nodup :
    (∀ e : NetErr, get_models_ids (Except.error e) = fallback_models ∧
      fallback_models.Nodup) ∧
    ∀ ids : List String, (get_models_ids (Except.ok ids)).Nodup ∧
      ∀ x : String, x ∈ get_models_ids (Except.ok ids) ↔
        x ∈ fallback_models ∨ x ∈ ids := by
  refine ⟨fun e => ⟨by cases e <;> rfl, by decide⟩, fun ids => ⟨?_, fun x => ?_⟩⟩
  · exact List.nodup_dedup _
  · simp [get_models_ids, List.mem_dedup, List.mem_append]

/-- C8 (confirmed).  A handle's cancellation flag is monotonic: once
`stop_event` is set, no sequence of further operations (pulls by the
relay worker or stop signals) ever clears it, and a pull performed in any
state reached from a stopped state yields nothing. -/
theorem c8_flag_monotonic_no_yield (g : StoppableGenerator)
    (ops : List HandleOp) (h : g.stop_event = true) :
    (g.runOps ops).stop_event = true ∧ ((g.runOps ops).next).1 = none := by
  induction ops generalizing g with
  | nil =>
    refine ⟨h, ?_⟩
    simp [StoppableGenerator.runOps, StoppableGenerator.next, h]
  | cons op ops ih =>
    have hstep : (g.applyOp op).stop_event = true := by
      cases op <;>
        simp [StoppableGenerator.applyOp, StoppableGenerator.next,
          StoppableGenerator.setStop, h]
    rw [StoppableGenerator.runOps]
    exact ih _ hstep

/-- Witness for C8 at a concrete stopped handle and operation sequence. -/
theorem c8_flag_monotonic_no_yield_witness :
    (StoppableGenerator.mk true ["a", "b"]).stop_event = true ∧
    ((StoppableGenerator.runOps (StoppableGenerator.mk true ["a", "b"])
        [HandleOp.pull, HandleOp.stopSignal, HandleOp.pull]).stop_event = true ∧
      ((StoppableGenerator.runOps (StoppableGenerator.mk true ["a", "b"])
        [HandleOp.pull, HandleOp.stopSignal, HandleOp.pull]).next).1 = none) :=
  ⟨rfl, c8_flag_monotonic_no_yield _ _ rfl⟩

/-- C6 (confirmed).  A non-empty upstream line whose stripped form starts
with `data: ` but whose remainder is not valid JSON yields exactly one
error-marker fragment, and processing continues with the remaining lines
unchanged: one malformed line does not abort the stream. -/
theorem c6_malformed_data_line (raw : String) (rest : List String)
    (h0 : raw ≠ "")
    (h1 : strStartsWith (pyStrip raw) "data: " = true)
    (h2 : parseJson (strDrop (pyStrip raw) 6) = none) :
    process_stream (raw :: rest) = errMarker :: process_stream rest := by
  rw [process_stream]
  simp [h0, h1, h2]

/-- Witness for C6 at the spec's example `data: {not json`, followed by a
valid content line that is still processed. -/
theorem c6_malformed_data_line_witness :
    ("data: \x7bnot json" ≠ "") ∧
    strStartsWith (pyStrip "data: \x7bnot json") "data: " = true ∧
    parseJson (strDrop (pyStrip "data: \x7bnot json") 6) = none ∧
    process_stream
      ["data: \x7bnot json",
       "data: \x7b\"choices\": [\x7b\"delta\": \x7b\"content\": \"ok\"\x7d\x7d]\x7d"] =
      errMarker :: process_stream
        ["data: \x7b\"choices\": [\x7b\"delta\": \x7b\"content\": \"ok\"\x7d\x7d]\x7d"] :=
  ⟨by decide, by decide, rfl,
   c6_malformed_data_line _ _ (by decide) (by decide) rfl⟩

/-- C7 (confirmed).  Registering a second handle under an already-used
session identifier unconditionally overwrites the dict entry, so a
subsequent `/stop` for that identifier succeeds (200), sets only the
second handle's flag, leaves the first handle's flag as it was, and
removes the entry. -/
theorem c7_register_overwrite (w : World) (sid : String) (h1 h2 : Nat)
    (hne : h1 ≠ h2) :
    (stop_generation (register (register w sid h1) sid h2) sid).1.code = 200 ∧
    (stop_generation (register (register w sid h1) sid h2) sid).2.flags h2 = true ∧
    (stop_generation (register (register w sid h1) sid h2) sid).2.flags h1 =
      w.flags h1 ∧
    (stop_generation (register (register w sid h1) sid h2) sid).2.registry sid =
      none := by
  simp [register, regInsert, stop_generation, regErase, setFlag, hne]

/-- Witness for C7 with two distinct handles and an empty initial world. -/
theorem c7_register_overwrite_witness :
    (stop_generation (register (register
      (World.mk (fun _ => none) (fun _ => false)) "s" 0) "s" 1) "s").1.code = 200 ∧
    (stop_generation (register (register
      (World.mk (fun _ => none) (fun _ => false)) "s" 0) "s" 1) "s").2.flags 1 = true ∧
    (stop_generation (register (register
      (World.mk (fun _ => none) (fun _ => false)) "s" 0) "s" 1) "s").2.flags 0 =
      (World.mk (fun _ => none) (fun _ => false)).flags 0 ∧
    (stop_generation (register (register
      (World.mk (fun _ => none) (fun _ => false)) "s" 0) "s" 1) "s").2.registry "s" =
      none :=
  c7_register_overwrite _ "s" 0 1 (by decide)

/-- C9 (confirmed).  `/stop` with a registered identifier sets that
handle's flag, removes the entry and answers `{"status": "stopped"}` with
200; with an unknown identifier it answers `{"status": "not found"}` with
404 and leaves the whole state (registry and every flag) untouched. -/
theorem c9_stop_endpoint :
    (∀ (w : World) (sid : String) (h : Nat), w.registry sid = some h →
      (stop_generation w sid).1.body = Json.obj [("status", Json.str "stopped")] ∧
      (stop_generation w sid).1.code = 200 ∧
      (stop_generation w sid).2.registry sid = none ∧
      (stop_generation w sid).2.flags h = true) ∧
    ∀ (w : World) (sid : String), w.registry sid = none →
      (stop_generation w sid).1.body = Json.obj [("status", Json.str "not found")] ∧
      (stop_generation w sid).1.code = 404 ∧
      (stop_generation w sid).2 = w := by
  constructor
  · intro w sid h hreg
    simp [stop_generation, hreg, regErase, setFlag]
  · intro w sid hreg
    simp [stop_generation, hreg]

/-- Witness for C9: a world holding handle 5 under `"s"`, probed at the
present identifier `"s"` and the absent identifier `"t"`. -/
theorem c9_stop_endpoint_witness :
    (stop_generation (World.mk (fun x => if x = "s" then some 5 else none)
      (fun _ => false)) "s").1.code = 200 ∧
    (stop_generation (World.mk (fun x => if x = "s" then some 5 else none)
      (fun _ => false)) "s").2.flags 5 = true ∧
    (stop_generation (World.mk (fun x => if x = "s" then some 5 else none)
      (fun _ => false)) "t").1.code = 404 ∧
    (stop_generation (World.mk (fun x => if x = "s" then some 5 else none)
      (fun _ => false)) "t").2 =
      World.mk (fun x => if x = "s" then some 5 else none) (fun _ => false) :=
  ⟨(c9_stop_endpoint.1 _ "s" 5 rfl).2.1,
   (c9_stop_endpoint.1 _ "s" 5 rfl).2.2.2,
   (c9_stop_endpoint.2 _ "t" rfl).2.1,
   (c9_stop_endpoint.2 _ "t" rfl).2.2⟩

theorem sgRun_cancel (flag : Nat → Bool) :
    ∀ (frags : List String) (i k : Nat), flag (i + k) = true →
      ∃ j, j ≤ k ∧ sgRun flag frags i = (frags.take j).map contentEvent := by
  intro frags
  induction frags with
  | nil =>
    intro i k _
    refine ⟨0, Nat.zero_le k, ?_⟩
    cases hf : flag i <;> rw [sgRun] <;> simp [hf]
  | cons f r ih =>
    intro i k hk
    cases hf : flag i with
    | true => exact ⟨0, Nat.zero_le k, by rw [sgRun]; simp [hf]⟩
    | false =>
      cases k with
      | zero =>
        rw [Nat.add_zero, hf] at hk
        exact absurd hk (by simp)
      | succ k' =>
        have hk' : flag (i + 1 + k') = true := by
          have harr : i + 1 + k' = i + (k' + 1) := by omega
          rw [harr]; exact hk
        obtain ⟨j, hj, hrun⟩ := ih (i + 1) k' hk'
        refine ⟨j + 1, Nat.succ_le_succ hj, ?_⟩
        rw [sgRun]
        simp [hf, hrun]

/-- C1 (counterexample).  As stated, once the stop flag is observed set
the downstream stream must never subsequently emit `data: [DONE]`.  With
the flag already set at the first pull (a stop issued before any
fragment was relayed), the loop ends via `StopIteration` and the relay
falls through to `yield "data: [DONE]\n\n"`: the stream consists of
exactly the terminal block, emitted after the flag was observed set. -/
theorem c1_done_after_cancel_counterexample :
    (fun _ : Nat => true) 0 = true ∧
    generate_stream_events ["a"] (fun _ : Nat => true) = [doneEvent] :=
  ⟨rfl, rfl⟩

/-- C1 (amended).  Once the handle's stop flag is set by the `i`-th pull
(it is checked before each pull), the relay pulls no further fragments —
at most `k` content events are emitted when the flag is set at pull index
`k` — but the downstream stream still terminates with exactly one
`data: [DONE]` block, since the cancellation `StopIteration` exits the
loop through the normal completion path. -/
theorem c1_cancel_stops_pulls_but_emits_done (frags : List String)
    (flag : Nat → Bool) (k : Nat) (hk : flag k = true) :
    ∃ j, j ≤ k ∧ generate_stream_events frags flag =
      ((frags.take j).map contentEvent) ++ [doneEvent] := by
  obtain ⟨j, hj, hrun⟩ := sgRun_cancel flag frags 0 k (by rwa [Nat.zero_add])
  exact ⟨j, hj, by rw [generate_stream_events, hrun]⟩

/-- Witness for C1 (amended): a stop arriving after the first pull cuts a
three-fragment relay to at most one content event plus the terminal
block. -/
theorem c1_cancel_stops_pulls_but_emits_done_witness :
    (fun i : Nat => decide (1 ≤ i)) 1 = true ∧
    ∃ j, j ≤ 1 ∧
      generate_stream_events ["a", "b", "c"] (fun i : Nat => decide (1 ≤ i)) =
        ((["a", "b", "c"].take j).map contentEvent) ++ [doneEvent] :=
  ⟨rfl, c1_cancel_stops_pulls_but_emits_done _ _ 1 rfl⟩

theorem errorEvent_ne_doneEvent (e : String) : errorEvent e ≠ doneEvent := by
  intro h
  have hlen := congrArg String.length h
  rw [errorEvent, pyJsonDumpsStr] at hlen
  simp only [String.length_append] at hlen
  have h1 : ("data: " : String).length = 6 := rfl
  have h2 : ("\x7b\"error\": " : String).length = 10 := rfl
  have h3 : ("\"" : String).length = 1 := rfl
  have h4 : ("\x7d" : String).length = 1 := rfl
  have h5 : ("\n\n" : String).length = 2 := rfl
  have h6 : doneEvent.length = 14 := rfl
  rw [h1, h2, h3, h4, h5, h6] at hlen
  omega

/-- C10 (amended).  When `lm_proxy.generate` raises at stream
establishment, `generate_stream` registers nothing and emits exactly one
`data: {"error": ...}` block and no `data: [DONE]` block, and afterwards
the registry holds no entry for the session identifier; if the registry
held no entry beforehand, the whole state is unchanged and a stop for
that identifier answers 404.  (A pre-existing entry under the same
identifier is, however, removed by the `finally` clause — see the
counterexample.) -/
theorem c10_establishment_failure (w : World) (sid : String) (hid : Nat)
    (e : String) (flag : Nat → Bool) :
    (generate_stream_run w sid hid (Except.error e) flag).1 = [errorEvent e] ∧
    doneEvent ∉ (generate_stream_run w sid hid (Except.error e) flag).1 ∧
    (generate_stream_run w sid hid (Except.error e) flag).2.registry sid = none ∧
    (w.registry sid = none →
      (generate_stream_run w sid hid (Except.error e) flag).2 = w ∧
      (stop_generation (generate_stream_run w sid hid (Except.error e) flag).2
        sid).1.code = 404) := by
  refine ⟨rfl, ?_, ?_, fun hnone => ?_⟩
  · simp only [generate_stream_run, List.mem_singleton]
    exact fun h => errorEvent_ne_doneEvent e h.symm
  · by_cases hc : (w.registry sid).isSome
    · simp [generate_stream_run, finallyCleanup, hc, regErase]
    · simp only [generate_stream_run, finallyCleanup, hc, if_false, Bool.false_eq_true]
      simpa [Option.not_isSome_iff_eq_none] using hc
  · have hclean : finallyCleanup w.registry sid = w.registry := by
      simp [finallyCleanup, hnone]
    constructor
    · simp [generate_stream_run, hclean]
    · simp [generate_stream_run, hclean, stop_generation, hnone]

/-- Witness for C10 (amended) with an empty registry. -/
theorem c10_establishment_failure_witness :
    (generate_stream_run (World.mk (fun _ => none) (fun _ => false)) "s" 9
      (Except.error "boom") (fun _ => false)).1 = [errorEvent "boom"] ∧
    (generate_stream_run (World.mk (fun _ => none) (fun _ => false)) "s" 9
      (Except.error "boom") (fun _ => false)).2 =
      World.mk (fun _ => none) (fun _ => false) ∧
    (stop_generation (generate_stream_run (World.mk (fun _ => none)
      (fun _ => false)) "s" 9 (Except.error "boom") (fun _ => false)).2
      "s").1.code = 404 :=
  ⟨(c10_establishment_failure _ "s" 9 "boom" _).1,
   ((c10_establishment_failure _ "s" 9 "boom" _).2.2.2 rfl).1,
   ((c10_establishment_failure _ "s" 9 "boom" _).2.2.2 rfl).2⟩

/-- C10 (counterexample).  As stated, the claim asserts the registry
mapping is left unchanged by a request whose stream construction fails.
If another relay's entry for the same session identifier is present, the
failing request's `finally` clause (`if session_id in generators: del
generators[session_id]`) deletes it: here handle 7 is registered under
`"s"` beforehand and gone afterwards. -/
theorem c10_preexisting_entry_removed_counterexample :
    (World.mk (fun x => if x = "s" then some 7 else none)
      (fun _ => false)).registry "s" = some 7 ∧
    (generate_stream_run (World.mk (fun x => if x = "s" then some 7 else none)
      (fun _ => false)) "s" 9 (Except.error "boom") (fun _ => false)).2.registry
      "s" = none :=
  ⟨rfl, rfl⟩
